import Mathlib

/-!
Verification of the EasyKeyNav browser extension: the content script
(element discovery, cyclic heading/landmark navigation, keyboard dispatch,
help dialog), the background worker and the popup controller.

A DOM element is modelled by the attributes the scripts inspect, and a
document is the list of its elements in document order (depth-first
pre-order), so the document position of an element is its index in the
list.  querySelectorAll for a simple selector is modelled by the list of
indices of matching elements, produced in ascending document order, as the
DOM guarantees.  Array.prototype.sort with the compareDocumentPosition
comparator is modelled by a comparison sort over the same comparator.
-/

namespace EasyKeyNav

/-- A DOM element, restricted to the attributes the scripts read.
`tag` is the uppercase tagName.  `ancestorTags` lists the uppercase tag
names of the ancestors of the element (nearest first); it is what the
closest() calls inspect. -/
structure Elem where
  tag : String
  role : Option String := none
  ariaHidden : Option String := none
  ariaLabel : Option String := none
  ariaLabelledby : Option String := none
  displayNone : Bool := false
  visibilityHidden : Bool := false
  ancestorTags : List String := []
  deriving DecidableEq, Repr

/-- document.querySelectorAll for a predicate selector: the indices of the
matching elements, in ascending document order. -/
def selMatches (doc : List Elem) (p : Elem → Bool) : List Nat :=
  (doc.enum.filter (fun ie => p ie.2)).map Prod.fst

/-- Evaluate a predicate at an element index (false out of range). -/
def testAt (doc : List Elem) (p : Elem → Bool) (i : Nat) : Bool :=
  match doc[i]? with
  | some e => p e
  | none => false

/-- The JavaScript idiom list.filter((x, i) => list.indexOf(x) === i) used
by getAllHeadings and getAllLandmarks to remove duplicates: keep exactly
the first occurrence of every entry. -/
def dedupKeepFirst (l : List Nat) : List Nat :=
  (l.enum.filter (fun p => l.indexOf p.2 == p.1)).map Prod.snd

/-- The comparator passed to sort in getAllHeadings and getAllLandmarks:
-1 when b follows a in document order (DOCUMENT_POSITION_FOLLOWING), 1 when
b precedes a, 0 otherwise.  With document positions modelled as indices, b
follows a exactly when a < b. -/
def docOrderCmp (a b : Nat) : Int :=
  if a < b then -1 else if b < a then 1 else 0

/-- The ordering induced by the comparator: a may come before b. -/
def docOrderLe (a b : Nat) : Prop := docOrderCmp a b ≤ 0

instance : DecidableRel docOrderLe := fun _ _ => by
  unfold docOrderLe; infer_instance

instance : IsTotal Nat docOrderLe :=
  ⟨fun a b => by unfold docOrderLe docOrderCmp; split_ifs <;> omega⟩

instance : IsTrans Nat docOrderLe :=
  ⟨fun a b c hab hbc => by
    unfold docOrderLe docOrderCmp at hab hbc ⊢
    split_ifs at hab hbc ⊢ <;> omega⟩

/-- Array.prototype.sort with the document-order comparator. -/
def sortByDocOrder (l : List Nat) : List Nat := l.insertionSort docOrderLe

/-- The visibility filter shared by getAllHeadings and getAllLandmarks:
computed display is not none, computed visibility is not hidden, and the
aria-hidden attribute is not the string "true". -/
def isVisible (e : Elem) : Bool :=
  !e.displayNone && !e.visibilityHidden && !(e.ariaHidden == some "true")

/-- The uppercase tag names matched by the selector h1, h2, h3, h4, h5, h6. -/
def headingTags : List String := ["H1", "H2", "H3", "H4", "H5", "H6"]

/-- getAllHeadings from the content script: native h1-h6 elements and
elements with role="heading", concatenated, deduplicated keeping first
occurrences, filtered to visible elements, and sorted by document order. -/
def getAllHeadings (doc : List Elem) : List Nat :=
  let htmlHeadings := selMatches doc (fun e => headingTags.contains e.tag)
  let ariaHeadings := selMatches doc (fun e => e.role == some "heading")
  let allHeadings := htmlHeadings ++ ariaHeadings
  let uniqueHeadings := dedupKeepFirst allHeadings
  let visibleHeadings := uniqueHeadings.filter (fun i => testAt doc isVisible i)
  sortByDocOrder visibleHeadings

/-- The explicit ARIA landmark roles, in the order the source iterates
them. -/
def ariaLandmarkRoles : List String :=
  ["banner", "navigation", "main", "complementary", "contentinfo", "search",
    "form", "region"]

/-- element.closest with the selector article, section: true when the
element itself or one of its ancestors is an article or a section. -/
def closestArticleSection (e : Elem) : Bool :=
  e.tag == "ARTICLE" || e.tag == "SECTION" ||
    e.ancestorTags.any (fun t => t == "ARTICLE" || t == "SECTION")

/-- Whether the role attribute carries an explicit ARIA landmark role (the
forEach loop over ariaLandmarkRoles in getAllLandmarks). -/
def hasExplicitLandmarkRole (e : Elem) : Bool :=
  match e.role with
  | some r => ariaLandmarkRoles.contains r
  | none => false

/-- getAllLandmarks from the content script: elements with explicit ARIA
landmark roles, then the implicit HTML landmarks (header and footer only
when not nested in an article or section; nav, main, aside always; section
and form only when they carry aria-label or aria-labelledby), concatenated
in source order, deduplicated keeping first occurrences, filtered to
visible elements, and sorted by document order. -/
def getAllLandmarks (doc : List Elem) : List Nat :=
  let explicitRoles :=
    (ariaLandmarkRoles.map
      (fun role => selMatches doc (fun e => e.role == some role))).flatten
  let headers := (selMatches doc (fun e => e.tag == "HEADER")).filter
    (fun i => testAt doc (fun e => !closestArticleSection e) i)
  let navs := selMatches doc (fun e => e.tag == "NAV")
  let mains := selMatches doc (fun e => e.tag == "MAIN")
  let footers := (selMatches doc (fun e => e.tag == "FOOTER")).filter
    (fun i => testAt doc (fun e => !closestArticleSection e) i)
  let asides := selMatches doc (fun e => e.tag == "ASIDE")
  let sections := selMatches doc
    (fun e => e.tag == "SECTION" && (e.ariaLabel.isSome || e.ariaLabelledby.isSome))
  let forms := selMatches doc
    (fun e => e.tag == "FORM" && (e.ariaLabel.isSome || e.ariaLabelledby.isSome))
  let landmarks :=
    explicitRoles ++ headers ++ navs ++ mains ++ footers ++ asides ++
      sections ++ forms
  let uniqueLandmarks := dedupKeepFirst landmarks
  let visibleLandmarks := uniqueLandmarks.filter
    (fun i => testAt doc isVisible i)
  sortByDocOrder visibleLandmarks

/-- The cursor transition of navigateToNextHeading and
navigateToNextLandmark: (cursor + 1) % n, with the truncating remainder of
JavaScript. -/
def nextCursor (n c : Int) : Int := Int.tmod (c + 1) n

/-- The cursor transition of navigateToPreviousHeading and
navigateToPreviousLandmark: n - 1 when cursor ≤ 0, cursor - 1 otherwise. -/
def prevCursor (n c : Int) : Int := if c ≤ 0 then n - 1 else c - 1

/-- The module-level navigation state of the content script.  `focused`
records which element (by index) last received DOM focus through
makeElementFocusableAndFocus. -/
structure NavState where
  currentHeadingIndex : Int := -1
  lastHeadingsList : List Nat := []
  currentLandmarkIndex : Int := -1
  lastLandmarksList : List Nat := []
  focused : Option Nat := none
  deriving DecidableEq, Repr

/-- JavaScript array indexing arr[i] with an Int index: undefined (none)
outside the array bounds. -/
def jsIndex {α : Type} (l : List α) (i : Int) : Option α :=
  if 0 ≤ i then l[i.toNat]? else none

/-- navigateToNextHeading: recompute the list; no-op when it is empty;
otherwise store the list, advance the cursor, and focus the element at the
new cursor.  The Bool is true when the element access yields undefined and
focusing it would throw (cursor already updated at that point). -/
def navigateToNextHeading (doc : List Elem) (st : NavState) : NavState × Bool :=
  let headings := getAllHeadings doc
  if headings.length = 0 then (st, false)
  else
    let idx := nextCursor (headings.length : Int) st.currentHeadingIndex
    let st1 := { st with lastHeadingsList := headings, currentHeadingIndex := idx }
    match jsIndex headings idx with
    | some h => ({ st1 with focused := some h }, false)
    | none => (st1, true)

/-- navigateToPreviousHeading, same shape with the prev transition. -/
def navigateToPreviousHeading (doc : List Elem) (st : NavState) :
    NavState × Bool :=
  let headings := getAllHeadings doc
  if headings.length = 0 then (st, false)
  else
    let idx := prevCursor (headings.length : Int) st.currentHeadingIndex
    let st1 := { st with lastHeadingsList := headings, currentHeadingIndex := idx }
    match jsIndex headings idx with
    | some h => ({ st1 with focused := some h }, false)
    | none => (st1, true)

/-- navigateToNextLandmark. -/
def navigateToNextLandmark (doc : List Elem) (st : NavState) :
    NavState × Bool :=
  let landmarks := getAllLandmarks doc
  if landmarks.length = 0 then (st, false)
  else
    let idx := nextCursor (landmarks.length : Int) st.currentLandmarkIndex
    let st1 := { st with lastLandmarksList := landmarks, currentLandmarkIndex := idx }
    match jsIndex landmarks idx with
    | some h => ({ st1 with focused := some h }, false)
    | none => (st1, true)

/-- navigateToPreviousLandmark. -/
def navigateToPreviousLandmark (doc : List Elem) (st : NavState) :
    NavState × Bool :=
  let landmarks := getAllLandmarks doc
  if landmarks.length = 0 then (st, false)
  else
    let idx := prevCursor (landmarks.length : Int) st.currentLandmarkIndex
    let st1 := { st with lastLandmarksList := landmarks, currentLandmarkIndex := idx }
    match jsIndex landmarks idx with
    | some h => ({ st1 with focused := some h }, false)
    | none => (st1, true)

/-- The event target attributes shouldIgnoreKeyEvent reads. -/
structure KeyTarget where
  tagName : String := "BODY"
  isContentEditable : Bool := false
  role : Option String := none
  deriving DecidableEq, Repr

/-- The attributes of a keydown event that handleKeyPress reads.
`capsLock` is event.getModifierState for CapsLock. -/
structure KeyEvent where
  key : String
  ctrlKey : Bool := false
  altKey : Bool := false
  shiftKey : Bool := false
  metaKey : Bool := false
  capsLock : Bool := false
  target : KeyTarget := {}
  deriving DecidableEq, Repr

/-- The editableElements list of shouldIgnoreKeyEvent. -/
def editableElements : List String := ["INPUT", "TEXTAREA", "SELECT"]

/-- The ariaRoles list of shouldIgnoreKeyEvent. -/
def ariaWidgetRoles : List String :=
  ["textbox", "searchbox", "combobox", "listbox", "tree", "grid"]

/-- shouldIgnoreKeyEvent: suppress handling for form controls,
content-editable targets, ARIA widget roles (with JavaScript truthiness on
the role string), and while CapsLock is asserted. -/
def shouldIgnoreKeyEvent (ev : KeyEvent) : Bool :=
  if editableElements.contains ev.target.tagName then true
  else if ev.target.isContentEditable then true
  else if (match ev.target.role with
           | some r => !(r == "") && ariaWidgetRoles.contains r
           | none => false) then true
  else if ev.capsLock then true
  else false

/-- The operation a keydown dispatches to. -/
inductive Action where
  | toggleHelp
  | closeHelp
  | focusMainHeading
  | focusMainContent
  | focusNavigation
  | tabTimes (n : Nat)
  | nextHeading
  | prevHeading
  | nextLandmark
  | prevLandmark
  | noOp
  deriving DecidableEq, Repr

/-- The Ctrl+/ (Cmd+/ on Mac) help-toggle condition of handleKeyPress. -/
def isHelpToggleCombo (isMac : Bool) (ev : KeyEvent) : Bool :=
  ev.key == "/" && ((ev.ctrlKey && !isMac) || (ev.metaKey && isMac)) &&
    !ev.altKey && !ev.shiftKey

/-- handleKeyPress as a dispatch function: which operation a keydown
invokes, given the platform flag and whether the help dialog is open.  The
branch order is that of the source: help toggle, then Escape, then the
shouldIgnoreKeyEvent guard, then the navigation shortcuts. -/
def handleKeyPress (isMac : Bool) (helpDialogOpen : Bool) (ev : KeyEvent) :
    Action :=
  if isHelpToggleCombo isMac ev then Action.toggleHelp
  else if ev.key == "Escape" && helpDialogOpen then Action.closeHelp
  else if shouldIgnoreKeyEvent ev then Action.noOp
  else if ev.key == "H" && ev.altKey && ev.shiftKey && !ev.ctrlKey && !ev.metaKey then
    Action.focusMainHeading
  else if ev.key == "M" && ev.altKey && ev.shiftKey && !ev.ctrlKey && !ev.metaKey then
    Action.focusMainContent
  else if ev.key == "N" && ev.altKey && ev.shiftKey && !ev.ctrlKey && !ev.metaKey then
    Action.focusNavigation
  else if ev.key == "%" && ev.altKey && ev.shiftKey && !ev.ctrlKey && !ev.metaKey then
    Action.tabTimes 5
  else if ev.key == ")" && ev.altKey && ev.shiftKey && !ev.ctrlKey && !ev.metaKey then
    Action.tabTimes 10
  else if ev.key == "h" && !ev.altKey && !ev.shiftKey && !ev.ctrlKey && !ev.metaKey then
    Action.nextHeading
  else if ev.key == "H" && ev.shiftKey && !ev.altKey && !ev.ctrlKey && !ev.metaKey then
    Action.prevHeading
  else if ev.key == "l" && !ev.altKey && !ev.shiftKey && !ev.ctrlKey && !ev.metaKey then
    Action.nextLandmark
  else if ev.key == "L" && ev.shiftKey && !ev.altKey && !ev.ctrlKey && !ev.metaKey then
    Action.prevLandmark
  else Action.noOp

/-- The help-dialog state together with the pieces of the page it touches.
`helpDialogElement` models whether the module-level variable holds a
non-null dialog subtree.  `activeElement` is document.activeElement as an
element identifier; `attachedElements` lists the identifiers for which
document.contains is true; `skipLinksContainer` is the result of looking up
the skip-links container by id (inner layer: its first anchor, if any);
`bodyId` and `closeButtonId` identify document.body and the close button of
the dialog. -/
structure DialogState where
  helpDialogOpen : Bool := false
  helpDialogElement : Bool := false
  lastFocusedElement : Option Nat := none
  activeElement : Nat := 0
  attachedElements : List Nat := []
  skipLinksContainer : Option (Option Nat) := none
  bodyId : Nat := 0
  closeButtonId : Nat := 1
  deriving DecidableEq, Repr

/-- openHelpDialog: no-op when already open; otherwise capture the focused
element, build and attach the dialog subtree, and focus its close
button. -/
def openHelpDialog (st : DialogState) : DialogState :=
  if st.helpDialogOpen then st
  else
    { st with
      lastFocusedElement := some st.activeElement,
      helpDialogElement := true,
      activeElement := st.closeButtonId,
      helpDialogOpen := true }

/-- The fallback focus of closeHelpDialog: the anchor inside the skip-links
container when the container exists (no focus call at all when the
container exists but holds no anchor), document.body when the container
does not exist. -/
def closeFallbackFocus (st : DialogState) : DialogState :=
  match st.skipLinksContainer with
  | some (some a) => { st with activeElement := a }
  | some none => st
  | none => { st with activeElement := st.bodyId }

/-- closeHelpDialog: no-op when not open or the dialog element is null;
otherwise remove the subtree, restore focus to the captured element when it
is still attached (falling back otherwise), and clear the captured
element. -/
def closeHelpDialog (st : DialogState) : DialogState :=
  if !st.helpDialogOpen || !st.helpDialogElement then st
  else
    let st1 := { st with helpDialogElement := false, helpDialogOpen := false }
    let st2 :=
      match st1.lastFocusedElement with
      | some e =>
        if st1.attachedElements.contains e then { st1 with activeElement := e }
        else closeFallbackFocus st1
      | none => closeFallbackFocus st1
    { st2 with lastFocusedElement := none }

/-- toggleHelpDialog. -/
def toggleHelpDialog (st : DialogState) : DialogState :=
  if st.helpDialogOpen then closeHelpDialog st else openHelpDialog st

/-- The module-level initial values of the dialog globals:
helpDialogOpen = false, helpDialogElement = null,
lastFocusedElement = null. -/
def initialDialogState : DialogState := {}

/-- The inductive invariant of the dialog state machine: the open flag
matches the presence of the dialog subtree, and while closed no captured
focus target is retained. -/
def dialogInvariant (st : DialogState) : Prop :=
  st.helpDialogOpen = st.helpDialogElement ∧
  (st.helpDialogOpen = false → st.lastFocusedElement = none)

/-- The tabindex lifecycle state of one element: its tabindex attribute,
whether the one-shot remove-tabindex blur handler is registered, and
whether the element currently has focus. -/
structure FocusableState where
  tabindex : Option String := none
  blurHandlerActive : Bool := false
  focused : Bool := false
  deriving DecidableEq, Repr

/-- makeElementFocusableAndFocus: read the original tabindex attribute; when
it is absent assign -1; focus the element; when the original was absent
register a one-shot blur handler that removes the attribute. -/
def makeElementFocusableAndFocus (el : FocusableState) : FocusableState :=
  let originalTabIndex := el.tabindex
  let el1 := if originalTabIndex == none then { el with tabindex := some "-1" } else el
  let el2 := { el1 with focused := true }
  if originalTabIndex == none then { el2 with blurHandlerActive := true } else el2

/-- The element loses focus: the one-shot handler, when registered, removes
the tabindex attribute and deregisters itself. -/
def blurElement (el : FocusableState) : FocusableState :=
  let el1 := { el with focused := false }
  if el1.blurHandlerActive then
    { el1 with tabindex := none, blurHandlerActive := false }
  else el1

/-- The getState response shape of the background worker. -/
structure GetStateResponse where
  enabled : Bool
  deriving DecidableEq, Repr

/-- The background worker getState answer: result.enabled !== false, over
the persisted enabled key (none models missing or undefined). -/
def backgroundGetState (stored : Option Bool) : GetStateResponse :=
  { enabled := !(stored == some false) }

/-- The popup loadState computation of the enabled flag:
result.enabled !== false. -/
def popupLoadStateEnabled (stored : Option Bool) : Bool :=
  !(stored == some false)

end EasyKeyNav

namespace EasyKeyNav

theorem docOrderLe_iff {a b : Nat} : docOrderLe a b ↔ a ≤ b := by
  unfold docOrderLe docOrderCmp
  split_ifs <;> omega

theorem sortByDocOrder_perm (l : List Nat) : List.Perm (sortByDocOrder l) l :=
  List.perm_insertionSort _ l

theorem sortByDocOrder_sorted_le (l : List Nat) :
    List.Sorted (· ≤ ·) (sortByDocOrder l) :=
  (List.sorted_insertionSort docOrderLe l).imp (fun h => docOrderLe_iff.1 h)

theorem sorted_lt_of_sorted_le_nodup {l : List Nat}
    (hs : List.Sorted (· ≤ ·) l) (hn : l.Nodup) : List.Sorted (· < ·) l :=
  (hs.and hn).imp (fun h => lt_of_le_of_ne h.1 h.2)

theorem enum_nodup {α : Type} (l : List α) : l.enum.Nodup :=
  List.Nodup.of_map Prod.fst
    (by rw [List.enum_map_fst]; exact List.nodup_range _)

theorem mem_selMatches {doc : List Elem} {p : Elem → Bool} {i : Nat} :
    i ∈ selMatches doc p ↔ testAt doc p i = true := by
  unfold selMatches testAt
  constructor
  · intro h
    obtain ⟨⟨j, e⟩, hmem, rfl⟩ := List.mem_map.1 h
    obtain ⟨henum, hp⟩ := List.mem_filter.1 hmem
    rw [List.mem_enum_iff_getElem?] at henum
    simp only at henum hp
    rw [henum]
    exact hp
  · intro h
    cases hge : doc[i]? with
    | none => rw [hge] at h; cases h
    | some e =>
      rw [hge] at h
      exact List.mem_map.2 ⟨(i, e),
        List.mem_filter.2 ⟨List.mem_enum_iff_getElem?.2 hge, h⟩, rfl⟩

theorem mem_dedupKeepFirst {l : List Nat} {x : Nat} :
    x ∈ dedupKeepFirst l ↔ x ∈ l := by
  unfold dedupKeepFirst
  constructor
  · intro h
    obtain ⟨⟨j, y⟩, hmem, rfl⟩ := List.mem_map.1 h
    have henum := (List.mem_filter.1 hmem).1
    rw [List.mem_enum_iff_getElem?] at henum
    simp only at henum
    exact List.getElem?_mem henum
  · intro h
    refine List.mem_map.2 ⟨(l.indexOf x, x), List.mem_filter.2 ⟨?_, ?_⟩, rfl⟩
    · rw [List.mem_enum_iff_getElem?]
      simpa using List.getElem?_indexOf h
    · simp

theorem nodup_dedupKeepFirst (l : List Nat) : (dedupKeepFirst l).Nodup := by
  unfold dedupKeepFirst
  apply List.Nodup.map_on
  · intro p hp q hq hsnd
    have hp2 : l.indexOf p.2 = p.1 := by simpa using (List.mem_filter.1 hp).2
    have hq2 : l.indexOf q.2 = q.1 := by simpa using (List.mem_filter.1 hq).2
    have h1 : p.1 = q.1 := by rw [← hp2, ← hq2, hsnd]
    exact Prod.ext h1 hsnd
  · exact (enum_nodup l).filter _

theorem testAt_false_of_or {doc : List Elem} {p q : Elem → Bool} {i : Nat} :
    (testAt doc p i = true ∨ testAt doc q i = true) ↔
      testAt doc (fun e => p e || q e) i = true := by
  unfold testAt
  cases doc[i]? <;> simp

theorem testAt_and_iff {doc : List Elem} {p q : Elem → Bool} {i : Nat} :
    (testAt doc p i = true ∧ testAt doc q i = true) ↔
      testAt doc (fun e => p e && q e) i = true := by
  unfold testAt
  cases doc[i]? <;> simp

/-- C1: for every page, getAllHeadings returns each qualifying element
(native h1-h6 or role="heading", visible and not aria-hidden) exactly once,
contains nothing else, and is sorted in strict ascending document order. -/
theorem getAllHeadings_spec (doc : List Elem) :
    (getAllHeadings doc).Nodup ∧
    List.Sorted (· < ·) (getAllHeadings doc) ∧
    ∀ i : Nat, i ∈ getAllHeadings doc ↔
      testAt doc
        (fun e => (headingTags.contains e.tag || e.role == some "heading")
          && isVisible e) i = true := by
  have hnd : (getAllHeadings doc).Nodup := by
    simp only [getAllHeadings]
    exact ((sortByDocOrder_perm _).nodup_iff).2
      ((nodup_dedupKeepFirst _).filter _)
  refine ⟨hnd, sorted_lt_of_sorted_le_nodup (by
    simp only [getAllHeadings]; exact sortByDocOrder_sorted_le _) hnd, ?_⟩
  intro i
  simp only [getAllHeadings]
  rw [(sortByDocOrder_perm _).mem_iff, List.mem_filter, mem_dedupKeepFirst,
    List.mem_append, mem_selMatches, mem_selMatches]
  unfold testAt
  cases hd : doc[i]? <;> simp

theorem testAt_imp {doc : List Elem} {p q : Elem → Bool} {i : Nat}
    (h : ∀ e, p e = true → q e = true) :
    testAt doc p i = true → testAt doc q i = true := by
  unfold testAt
  cases doc[i]? with
  | none => exact id
  | some e => exact h e

theorem mem_explicitRoles {doc : List Elem} {i : Nat} :
    i ∈ (ariaLandmarkRoles.map
        (fun role => selMatches doc (fun e => e.role == some role))).flatten ↔
      testAt doc hasExplicitLandmarkRole i = true := by
  rw [List.mem_flatten]
  constructor
  · rintro ⟨l, hl, hi⟩
    obtain ⟨role, hrole, rfl⟩ := List.mem_map.1 hl
    rw [mem_selMatches] at hi
    refine testAt_imp (fun e he => ?_) hi
    have he2 : e.role = some role := by simpa using he
    simp only [hasExplicitLandmarkRole, he2]
    rw [List.contains_iff_exists_mem_beq]
    exact ⟨role, hrole, by simp⟩
  · intro h
    cases hd : doc[i]? with
    | none =>
      simp only [testAt, hd] at h
      exact Bool.noConfusion h
    | some e =>
      simp only [testAt, hd] at h
      cases hr : e.role with
      | none =>
        simp only [hasExplicitLandmarkRole, hr] at h
        exact Bool.noConfusion h
      | some r =>
        simp only [hasExplicitLandmarkRole, hr] at h
        rw [List.contains_iff_exists_mem_beq] at h
        obtain ⟨b, hb, hrb⟩ := h
        have hrb2 : r = b := by simpa using hrb
        subst hrb2
        refine ⟨selMatches doc (fun e => e.role == some r),
          List.mem_map.2 ⟨r, hb, rfl⟩, ?_⟩
        rw [mem_selMatches]
        simp only [testAt, hd, hr]
        simp

/-- C7 (amended): getAllLandmarks returns the deduplicated,
document-order sorted, visibility-filtered union of elements with explicit
ARIA landmark roles and implicit landmark elements, where only header and
footer elements lose their implicit role when nested inside an article or
section; nav, main, aside, labeled section and labeled form contribute
regardless of nesting. -/
theorem getAllLandmarks_spec (doc : List Elem) :
    (getAllLandmarks doc).Nodup ∧
    List.Sorted (· < ·) (getAllLandmarks doc) ∧
    ∀ i : Nat, i ∈ getAllLandmarks doc ↔
      (testAt doc hasExplicitLandmarkRole i = true ∨
        (testAt doc (fun e => e.tag == "HEADER") i = true ∧
          testAt doc (fun e => !closestArticleSection e) i = true) ∨
        testAt doc (fun e => e.tag == "NAV") i = true ∨
        testAt doc (fun e => e.tag == "MAIN") i = true ∨
        (testAt doc (fun e => e.tag == "FOOTER") i = true ∧
          testAt doc (fun e => !closestArticleSection e) i = true) ∨
        testAt doc (fun e => e.tag == "ASIDE") i = true ∨
        testAt doc (fun e => e.tag == "SECTION" &&
          (e.ariaLabel.isSome || e.ariaLabelledby.isSome)) i = true ∨
        testAt doc (fun e => e.tag == "FORM" &&
          (e.ariaLabel.isSome || e.ariaLabelledby.isSome)) i = true) ∧
      testAt doc isVisible i = true := by
  have hnd : (getAllLandmarks doc).Nodup := by
    simp only [getAllLandmarks]
    exact ((sortByDocOrder_perm _).nodup_iff).2
      ((nodup_dedupKeepFirst _).filter _)
  refine ⟨hnd, sorted_lt_of_sorted_le_nodup (by
    simp only [getAllLandmarks]; exact sortByDocOrder_sorted_le _) hnd, ?_⟩
  intro i
  simp only [getAllLandmarks]
  rw [(sortByDocOrder_perm _).mem_iff, List.mem_filter, mem_dedupKeepFirst]
  simp only [List.mem_append, mem_explicitRoles, List.mem_filter,
    mem_selMatches]
  simp only [or_assoc]

/-- C7 counterexample to the claim as frozen: a nav element nested inside
an article, with no explicit role, still contributes its implicit landmark
role, so it is not excluded from the implicit contribution. -/
theorem getAllLandmarks_nested_counterexample :
    getAllLandmarks
        [{ tag := "ARTICLE" }, { tag := "NAV", ancestorTags := ["ARTICLE"] }] =
      [1] ∧
    ({ tag := "NAV", ancestorTags := ["ARTICLE"] } : Elem).role = none ∧
    closestArticleSection { tag := "NAV", ancestorTags := ["ARTICLE"] } = true := by
  decide

theorem emod_eq_of_decomp {n r x : Int} (q : Int) (hx : x = n * q + r)
    (h0 : 0 ≤ r) (hr : r < n) : x % n = r := by
  subst hx
  rw [Int.add_comm, Int.add_mul_emod_self_left]
  exact Int.emod_eq_of_lt h0 hr

theorem nextCursor_iterate (n : Int) (hn : 0 < n) (c : Int) (h0 : 0 ≤ c)
    (hcn : c < n) : ∀ k : Nat, (nextCursor n)^[k] c = (c + k) % n := by
  intro k
  induction k with
  | zero => simpa using (Int.emod_eq_of_lt h0 hcn).symm
  | succ k ih =>
    rw [Function.iterate_succ_apply', ih]
    unfold nextCursor
    have h1 : 0 ≤ (c + (k : Int)) % n := Int.emod_nonneg _ (by omega)
    rw [Int.tmod_eq_emod (by omega) (by omega), Int.emod_add_emod]
    push_cast
    ring_nf

theorem prevCursor_iterate (n : Int) (hn : 0 < n) (c : Int) (h0 : 0 ≤ c)
    (hcn : c < n) : ∀ k : Nat, (prevCursor n)^[k] c = (c - k) % n := by
  intro k
  induction k with
  | zero => simpa using (Int.emod_eq_of_lt h0 hcn).symm
  | succ k ih =>
    rw [Function.iterate_succ_apply', ih]
    unfold prevCursor
    have h1 : 0 ≤ (c - (k : Int)) % n := Int.emod_nonneg _ (by omega)
    have h2 : (c - (k : Int)) % n < n := Int.emod_lt_of_pos _ hn
    obtain ⟨q, hq⟩ : ∃ q, c - (k : Int) = n * q + (c - (k : Int)) % n :=
      ⟨(c - (k : Int)) / n, (Int.ediv_add_emod _ _).symm⟩
    split_ifs with hle
    · have hz : (c - (k : Int)) % n = 0 := by omega
      refine (emod_eq_of_decomp (q - 1) ?_ (by omega) (by omega)).symm
      push_cast
      rw [hz] at hq
      linarith [hq]
    · refine (emod_eq_of_decomp q ?_ (by omega) (by omega)).symm
      push_cast
      omega

/-- C2 counterexample to the claim as frozen: with one heading and the
initial cursor -1, applying the next transition n = 1 times yields cursor
0, not the starting value -1. -/
theorem cursor_cycle_counterexample :
    (nextCursor 1)^[1] (-1) = 0 ∧ (0 : Int) ≠ -1 := by decide

/-- C2 (amended): for a list of length n > 0 and a starting cursor already
in range (0 ≤ c < n), applying the next transition n times returns the
cursor to its starting position, and applying the prev transition n times
likewise. -/
theorem cursor_cycle (n : Int) (hn : 0 < n) (c : Int) (h0 : 0 ≤ c)
    (hcn : c < n) :
    (nextCursor n)^[n.toNat] c = c ∧ (prevCursor n)^[n.toNat] c = c := by
  constructor
  · rw [nextCursor_iterate n hn c h0 hcn n.toNat, Int.toNat_of_nonneg hn.le]
    rw [show c + n = c + n * 1 by ring, Int.add_mul_emod_self_left]
    exact Int.emod_eq_of_lt h0 hcn
  · rw [prevCursor_iterate n hn c h0 hcn n.toNat, Int.toNat_of_nonneg hn.le]
    exact emod_eq_of_decomp (-1) (by ring) h0 hcn

/-- Witness for cursor_cycle at n = 3, c = 1. -/
theorem cursor_cycle_witness :
    (0 : Int) < 3 ∧ (0 : Int) ≤ 1 ∧ (1 : Int) < 3 ∧
      ((nextCursor 3)^[(3 : Int).toNat] 1 = 1 ∧
        (prevCursor 3)^[(3 : Int).toNat] 1 = 1) :=
  ⟨by decide, by decide, by decide,
    cursor_cycle 3 (by decide) 1 (by decide) (by decide)⟩

/-- C8: the background worker getState response and the popup loadState
flag are true when the persisted enabled key is missing or undefined, and
equal to the stored boolean when one is present. -/
theorem getState_default_enabled :
    (backgroundGetState none).enabled = true ∧
    popupLoadStateEnabled none = true ∧
    (∀ b : Bool, (backgroundGetState (some b)).enabled = b) ∧
    (∀ b : Bool, popupLoadStateEnabled (some b) = b) := by
  refine ⟨rfl, rfl, ?_, ?_⟩ <;> (intro b; cases b <;> rfl)

/-- C3: for both list types, when the freshly computed list is empty the
next and prev operations are complete no-ops (state returned unchanged,
nothing focused, nothing thrown); when it is non-empty, next sets the
cursor to (cursor + 1) % n and prev sets it to n - 1 when cursor ≤ 0 and
to cursor - 1 otherwise. -/
theorem navigate_transitions (doc : List Elem) (st : NavState) :
    ((getAllHeadings doc).length = 0 →
      navigateToNextHeading doc st = (st, false) ∧
      navigateToPreviousHeading doc st = (st, false)) ∧
    ((getAllHeadings doc).length ≠ 0 →
      (navigateToNextHeading doc st).1.currentHeadingIndex =
        nextCursor ((getAllHeadings doc).length : Int) st.currentHeadingIndex ∧
      (navigateToPreviousHeading doc st).1.currentHeadingIndex =
        prevCursor ((getAllHeadings doc).length : Int) st.currentHeadingIndex) ∧
    ((getAllLandmarks doc).length = 0 →
      navigateToNextLandmark doc st = (st, false) ∧
      navigateToPreviousLandmark doc st = (st, false)) ∧
    ((getAllLandmarks doc).length ≠ 0 →
      (navigateToNextLandmark doc st).1.currentLandmarkIndex =
        nextCursor ((getAllLandmarks doc).length : Int) st.currentLandmarkIndex ∧
      (navigateToPreviousLandmark doc st).1.currentLandmarkIndex =
        prevCursor ((getAllLandmarks doc).length : Int) st.currentLandmarkIndex) := by
  refine ⟨fun h => ?_, fun h => ?_, fun h => ?_, fun h => ?_⟩
  · constructor <;>
      simp [navigateToNextHeading, navigateToPreviousHeading, h]
  · constructor
    · simp only [navigateToNextHeading, if_neg h]
      cases jsIndex (getAllHeadings doc)
          (nextCursor ((getAllHeadings doc).length : Int)
            st.currentHeadingIndex) <;> rfl
    · simp only [navigateToPreviousHeading, if_neg h]
      cases jsIndex (getAllHeadings doc)
          (prevCursor ((getAllHeadings doc).length : Int)
            st.currentHeadingIndex) <;> rfl
  · constructor <;>
      simp [navigateToNextLandmark, navigateToPreviousLandmark, h]
  · constructor
    · simp only [navigateToNextLandmark, if_neg h]
      cases jsIndex (getAllLandmarks doc)
          (nextCursor ((getAllLandmarks doc).length : Int)
            st.currentLandmarkIndex) <;> rfl
    · simp only [navigateToPreviousLandmark, if_neg h]
      cases jsIndex (getAllLandmarks doc)
          (prevCursor ((getAllLandmarks doc).length : Int)
            st.currentLandmarkIndex) <;> rfl

/-- Witness for navigate_transitions: an empty page is a no-op for the
heading operations, and a page with one heading and one nav advances both
cursors from the initial -1 to 0. -/
theorem navigate_transitions_witness :
    navigateToNextHeading ([] : List Elem) {} = ({}, false) ∧
    (navigateToNextHeading [{ tag := "H1" }, { tag := "NAV" }]
      {}).1.currentHeadingIndex = 0 ∧
    (navigateToPreviousLandmark [{ tag := "H1" }, { tag := "NAV" }]
      {}).1.currentLandmarkIndex = 0 := by
  refine ⟨((navigate_transitions [] {}).1 (by decide)).1, ?_, ?_⟩
  · exact ((navigate_transitions [{ tag := "H1" }, { tag := "NAV" }]
      {}).2.1 (by decide)).1.trans (by decide)
  · exact ((navigate_transitions [{ tag := "H1" }, { tag := "NAV" }]
      {}).2.2.2 (by decide)).2.trans (by decide)

/-- C4: when the dispatch guard applies (in particular for a target with
tag name INPUT), no heading or landmark navigation operation is invoked:
the dispatch result can only be the help toggle, the Escape close, or
nothing.  The help toggle combo still dispatches the toggle, and Escape
still dispatches the close while the dialog is open, because both branches
are evaluated before the guard. -/
theorem guarded_dispatch (isMac op : Bool) (ev : KeyEvent)
    (hg : ev.target.tagName = "INPUT" ∨ shouldIgnoreKeyEvent ev = true) :
    handleKeyPress isMac op ev ∈
      [Action.toggleHelp, Action.closeHelp, Action.noOp] ∧
    (isHelpToggleCombo isMac ev = true →
      handleKeyPress isMac op ev = Action.toggleHelp) ∧
    (ev.key = "Escape" → op = true →
      handleKeyPress isMac op ev = Action.closeHelp) := by
  have hig : shouldIgnoreKeyEvent ev = true := by
    rcases hg with h | h
    · simp [shouldIgnoreKeyEvent, editableElements, h]
    · exact h
  refine ⟨?_, ?_, ?_⟩
  · unfold handleKeyPress
    split_ifs <;> simp_all
  · intro hc
    unfold handleKeyPress
    rw [if_pos hc]
  · intro hkey hop
    have hc : isHelpToggleCombo isMac ev = false := by
      unfold isHelpToggleCombo
      rw [hkey]
      simp
    unfold handleKeyPress
    rw [if_neg (by simp [hc]), if_pos (by simp [hkey, hop])]

/-- Witness for guarded_dispatch: with an INPUT target, the plain h key
dispatches nothing, Ctrl+/ still toggles the help dialog, and Escape still
closes it while open. -/
theorem guarded_dispatch_witness :
    handleKeyPress false false
        { key := "h", target := { tagName := "INPUT" } } ∈
      [Action.toggleHelp, Action.closeHelp, Action.noOp] ∧
    handleKeyPress false false
        { key := "/", ctrlKey := true, target := { tagName := "INPUT" } } =
      Action.toggleHelp ∧
    handleKeyPress false true
        { key := "Escape", target := { tagName := "INPUT" } } =
      Action.closeHelp :=
  ⟨(guarded_dispatch false false
      { key := "h", target := { tagName := "INPUT" } } (Or.inl rfl)).1,
    (guarded_dispatch false false
      { key := "/", ctrlKey := true, target := { tagName := "INPUT" } }
      (Or.inl rfl)).2.1 (by decide),
    (guarded_dispatch false true
      { key := "Escape", target := { tagName := "INPUT" } }
      (Or.inl rfl)).2.2 rfl rfl⟩

theorem closeFallbackFocus_helpDialogOpen (st : DialogState) :
    (closeFallbackFocus st).helpDialogOpen = st.helpDialogOpen := by
  rcases h : st.skipLinksContainer with _ | (_ | a) <;>
    simp [closeFallbackFocus, h]

theorem closeFallbackFocus_helpDialogElement (st : DialogState) :
    (closeFallbackFocus st).helpDialogElement = st.helpDialogElement := by
  rcases h : st.skipLinksContainer with _ | (_ | a) <;>
    simp [closeFallbackFocus, h]

theorem closeHelpDialog_noop_of_closed {st : DialogState}
    (h : st.helpDialogOpen = false ∨ st.helpDialogElement = false) :
    closeHelpDialog st = st := by
  rcases h with h | h <;> simp [closeHelpDialog, h]

theorem closeHelpDialog_closes {st : DialogState}
    (ho : st.helpDialogOpen = true) (he : st.helpDialogElement = true) :
    (closeHelpDialog st).helpDialogOpen = false ∧
    (closeHelpDialog st).helpDialogElement = false ∧
    (closeHelpDialog st).lastFocusedElement = none := by
  simp only [closeHelpDialog, ho, he, Bool.not_true, Bool.or_self,
    Bool.false_eq_true, if_false]
  cases hlf : st.lastFocusedElement with
  | none =>
    simp [closeFallbackFocus_helpDialogOpen, closeFallbackFocus_helpDialogElement]
  | some e =>
    split <;> (try split) <;>
      simp [closeFallbackFocus_helpDialogOpen, closeFallbackFocus_helpDialogElement]

/-- C5 (amended): when the open dialog is closed, focus is restored to the
captured element when it is still attached; otherwise focus falls back to
the anchor inside the skip-links container when the container exists and
holds an anchor, to the document body when the container does not exist,
and is left unchanged when the container exists but holds no anchor. -/
theorem closeHelpDialog_focus_restoration (st : DialogState)
    (hopen : st.helpDialogOpen = true) (helem : st.helpDialogElement = true) :
    (∀ e, st.lastFocusedElement = some e →
      st.attachedElements.contains e = true →
      (closeHelpDialog st).activeElement = e) ∧
    ((∀ e, st.lastFocusedElement = some e →
        st.attachedElements.contains e = false) →
      (∀ a, st.skipLinksContainer = some (some a) →
        (closeHelpDialog st).activeElement = a) ∧
      (st.skipLinksContainer = some none →
        (closeHelpDialog st).activeElement = st.activeElement) ∧
      (st.skipLinksContainer = none →
        (closeHelpDialog st).activeElement = st.bodyId)) := by
  constructor
  · intro e he hc
    have hc2 : e ∈ st.attachedElements := by simpa using hc
    simp [closeHelpDialog, hopen, helem, he, hc2]
  · intro hdet
    have hfb : ∀ st1 : DialogState,
        (∀ a, st1.skipLinksContainer = some (some a) →
          (closeFallbackFocus st1).activeElement = a) ∧
        (st1.skipLinksContainer = some none →
          (closeFallbackFocus st1).activeElement = st1.activeElement) ∧
        (st1.skipLinksContainer = none →
          (closeFallbackFocus st1).activeElement = st1.bodyId) := by
      intro st1
      refine ⟨fun a ha => ?_, fun ha => ?_, fun ha => ?_⟩ <;>
        simp [closeFallbackFocus, ha]
    cases hlf : st.lastFocusedElement with
    | none =>
      refine ⟨fun a ha => ?_, fun ha => ?_, fun ha => ?_⟩ <;>
        simp [closeHelpDialog, hopen, helem, hlf, closeFallbackFocus, ha]
    | some e =>
      have hc : e ∉ st.attachedElements := by simpa using hdet e hlf
      refine ⟨fun a ha => ?_, fun ha => ?_, fun ha => ?_⟩ <;>
        simp [closeHelpDialog, hopen, helem, hlf, hc, closeFallbackFocus, ha]

/-- Witness for closeHelpDialog_focus_restoration: restoration to a still
attached element, and fallback to the body when nothing was captured and no
skip-links container exists. -/
theorem closeHelpDialog_focus_restoration_witness :
    (closeHelpDialog
        { helpDialogOpen := true, helpDialogElement := true,
          lastFocusedElement := some 3, activeElement := 9,
          attachedElements := [3], skipLinksContainer := none,
          bodyId := 0, closeButtonId := 1 }).activeElement = 3 ∧
    (closeHelpDialog
        { helpDialogOpen := true, helpDialogElement := true,
          lastFocusedElement := none, activeElement := 9,
          attachedElements := [], skipLinksContainer := none,
          bodyId := 0, closeButtonId := 1 }).activeElement = 0 :=
  ⟨(closeHelpDialog_focus_restoration _ rfl rfl).1 3 rfl (by decide),
    ((closeHelpDialog_focus_restoration
        { helpDialogOpen := true, helpDialogElement := true,
          lastFocusedElement := none, activeElement := 9,
          attachedElements := [], skipLinksContainer := none,
          bodyId := 0, closeButtonId := 1 } rfl rfl).2
      (fun e he => Option.noConfusion he)).2.2 rfl⟩

/-- C5 counterexample to the claim as frozen: the captured element is
detached and the skip-links container exists, but it holds no anchor, so
closing focuses nothing at all: focus stays on element 7, which is neither
an anchor of the container (there is none) nor the document body. -/
theorem closeHelpDialog_fallback_counterexample :
    ({ helpDialogOpen := true, helpDialogElement := true,
        lastFocusedElement := some 5, activeElement := 7,
        attachedElements := [7], skipLinksContainer := some none,
        bodyId := 0, closeButtonId := 9 } : DialogState).skipLinksContainer
      = some none ∧
    ({ helpDialogOpen := true, helpDialogElement := true,
        lastFocusedElement := some 5, activeElement := 7,
        attachedElements := [7], skipLinksContainer := some none,
        bodyId := 0, closeButtonId := 9 } : DialogState).attachedElements.contains 5
      = false ∧
    (closeHelpDialog
        { helpDialogOpen := true, helpDialogElement := true,
          lastFocusedElement := some 5, activeElement := 7,
          attachedElements := [7], skipLinksContainer := some none,
          bodyId := 0, closeButtonId := 9 }).activeElement = 7 ∧
    (closeHelpDialog
        { helpDialogOpen := true, helpDialogElement := true,
          lastFocusedElement := some 5, activeElement := 7,
          attachedElements := [7], skipLinksContainer := some none,
          bodyId := 0, closeButtonId := 9 }).activeElement ≠ 0 := by
  decide

/-- C6: opening the help dialog when already open is a no-op, closing when
already closed is a no-op, and both operations are idempotent. -/
theorem helpDialog_idempotent (st : DialogState) :
    (st.helpDialogOpen = true → openHelpDialog st = st) ∧
    (st.helpDialogOpen = false → closeHelpDialog st = st) ∧
    openHelpDialog (openHelpDialog st) = openHelpDialog st ∧
    closeHelpDialog (closeHelpDialog st) = closeHelpDialog st := by
  refine ⟨fun h => by simp [openHelpDialog, h],
    fun h => by simp [closeHelpDialog, h], ?_, ?_⟩
  · cases h : st.helpDialogOpen with
    | true => simp [openHelpDialog, h]
    | false => simp [openHelpDialog, h]
  · cases h : st.helpDialogOpen with
    | false =>
      rw [closeHelpDialog_noop_of_closed (Or.inl h)]
      exact closeHelpDialog_noop_of_closed (Or.inl h)
    | true =>
      cases h2 : st.helpDialogElement with
      | false =>
        rw [closeHelpDialog_noop_of_closed (Or.inr h2)]
        exact closeHelpDialog_noop_of_closed (Or.inr h2)
      | true =>
        exact closeHelpDialog_noop_of_closed
          (Or.inl (closeHelpDialog_closes h h2).1)

/-- Witness for helpDialog_idempotent at an open and a closed state. -/
theorem helpDialog_idempotent_witness :
    openHelpDialog { helpDialogOpen := true, helpDialogElement := true } =
      { helpDialogOpen := true, helpDialogElement := true } ∧
    closeHelpDialog initialDialogState = initialDialogState :=
  ⟨(helpDialog_idempotent { helpDialogOpen := true, helpDialogElement := true }).1 rfl,
    (helpDialog_idempotent initialDialogState).2.1 rfl⟩

/-- C9: makeElementFocusableAndFocus assigns tabindex -1 only when the
element had no tabindex attribute; in that case the one-shot blur handler
removes the attribute exactly once, so after blur the attribute equals its
original value, and a second blur changes nothing; an element that already
carried a tabindex keeps it untouched throughout. -/
theorem tabindex_lifecycle (t : Option String) (f : Bool) :
    (t = none →
      (makeElementFocusableAndFocus
        { tabindex := t, blurHandlerActive := false, focused := f }).tabindex
        = some "-1") ∧
    (t ≠ none →
      makeElementFocusableAndFocus
          { tabindex := t, blurHandlerActive := false, focused := f } =
        { tabindex := t, blurHandlerActive := false, focused := true }) ∧
    (blurElement (makeElementFocusableAndFocus
      { tabindex := t, blurHandlerActive := false, focused := f })).tabindex
      = t ∧
    blurElement (blurElement (makeElementFocusableAndFocus
        { tabindex := t, blurHandlerActive := false, focused := f })) =
      blurElement (makeElementFocusableAndFocus
        { tabindex := t, blurHandlerActive := false, focused := f }) := by
  cases t <;>
    simp [makeElementFocusableAndFocus, blurElement]

/-- Witness for tabindex_lifecycle at a missing and a present tabindex. -/
theorem tabindex_lifecycle_witness :
    (makeElementFocusableAndFocus
      { tabindex := none, blurHandlerActive := false, focused := false }).tabindex
      = some "-1" ∧
    makeElementFocusableAndFocus
        { tabindex := some "0", blurHandlerActive := false, focused := false } =
      { tabindex := some "0", blurHandlerActive := false, focused := true } ∧
    (blurElement (makeElementFocusableAndFocus
      { tabindex := none, blurHandlerActive := false, focused := false })).tabindex
      = none :=
  ⟨(tabindex_lifecycle none false).1 rfl,
    (tabindex_lifecycle (some "0") false).2.1 (by simp),
    (tabindex_lifecycle none false).2.2.1⟩

/-- C10: the dialog invariant (open flag iff dialog subtree present, and no
captured focus target while closed) is preserved by openHelpDialog,
closeHelpDialog and toggleHelpDialog, and closeHelpDialog always leaves
lastFocusedElement cleared. -/
theorem dialog_state_invariant (st : DialogState) (h : dialogInvariant st) :
    dialogInvariant (openHelpDialog st) ∧
    dialogInvariant (closeHelpDialog st) ∧
    dialogInvariant (toggleHelpDialog st) ∧
    (closeHelpDialog st).lastFocusedElement = none := by
  obtain ⟨h1, h2⟩ := h
  have hopen : dialogInvariant (openHelpDialog st) := by
    cases ho : st.helpDialogOpen with
    | true =>
      rw [show openHelpDialog st = st by simp [openHelpDialog, ho]]
      exact ⟨h1, h2⟩
    | false =>
      constructor <;> simp [openHelpDialog, ho, dialogInvariant]
  have hcl : dialogInvariant (closeHelpDialog st) ∧
      (closeHelpDialog st).lastFocusedElement = none := by
    cases ho : st.helpDialogOpen with
    | false =>
      rw [show closeHelpDialog st = st by simp [closeHelpDialog, ho]]
      exact ⟨⟨h1, h2⟩, h2 ho⟩
    | true =>
      have he : st.helpDialogElement = true := by rw [← h1, ho]
      have hopen2 := closeHelpDialog_closes ho he
      exact ⟨⟨by rw [hopen2.1, hopen2.2.1], fun _ => hopen2.2.2⟩, hopen2.2.2⟩
  refine ⟨hopen, hcl.1, ?_, hcl.2⟩
  unfold toggleHelpDialog
  split_ifs with hto
  · exact hcl.1
  · exact hopen

/-- Witness for dialog_state_invariant at the initial module state. -/
theorem dialog_state_invariant_witness :
    dialogInvariant initialDialogState ∧
    (dialogInvariant (openHelpDialog initialDialogState) ∧
      dialogInvariant (closeHelpDialog initialDialogState) ∧
      dialogInvariant (toggleHelpDialog initialDialogState) ∧
      (closeHelpDialog initialDialogState).lastFocusedElement = none) :=
  ⟨⟨rfl, fun _ => rfl⟩,
    dialog_state_invariant initialDialogState ⟨rfl, fun _ => rfl⟩⟩

end EasyKeyNav
